import Mathlib

/-!
Shallow embedding of the operational-alerts batch pipeline
(`notebooks/alertas_operacionais_pyspark_databricks.py`).

Rows of the two input tables are records of `Option`-valued columns
(SQL NULL is `none`).  Column expressions built with `F.col`, `F.when`,
`F.isin`, `==`, `datediff` etc. are embedded with SQL three-valued
(Kleene) logic over `Option Bool`; a `.where` clause keeps a row only
when its predicate evaluates to `some true`.  Dataframes are Lean lists
that preserve the pipeline ordering; `limit` is `List.take`, `toPandas`
is the identity on the collected list.
-/

namespace Alertas

/-! ### SQL three-valued logic (Kleene) -/

/-- Kleene negation: `NOT NULL = NULL`. -/
def sqlNot : Option Bool → Option Bool
  | some b => some (!b)
  | none => none

/-- Kleene disjunction: `TRUE OR NULL = TRUE`, `FALSE OR NULL = NULL`. -/
def sqlOr : Option Bool → Option Bool → Option Bool
  | some true, _ => some true
  | _, some true => some true
  | some false, some false => some false
  | _, _ => none

/-- SQL equality of two nullable strings: `NULL` if either side is `NULL`. -/
def sqlEqS : Option String → Option String → Option Bool
  | some x, some y => some (x == y)
  | _, _ => none

/-- Embedding of `Column.isin(vs)` for a list of non-null string literals:
`NULL` column value yields `NULL`, otherwise a Boolean membership test. -/
def sqlIsin (a : Option String) (vs : List String) : Option Bool :=
  a.map (fun x => vs.any (fun v => x == v))

/-- Embedding of `Column.isNotNull()`: always a (non-null) Boolean. -/
def sqlIsNotNull {α : Type} (a : Option α) : Option Bool :=
  some a.isSome

/-- Embedding of `col > lit` on a nullable integer column. -/
def sqlGtI (a : Option Int) (b : Int) : Option Bool :=
  a.map (fun x => decide (b < x))

/-- A `.where` clause keeps a row only when the predicate is `some true`;
`some false` and `none` (unknown) both drop the row. -/
def isTrue : Option Bool → Bool
  | some true => true
  | _ => false

/-! ### String and date helpers -/

/-- Spark's `F.trim`: removes leading and trailing SPACE characters
(U+0020) only; other whitespace such as tab or newline is kept
(Spark SQL `trim` strips only spaces). -/
def sparkTrim (s : String) : String :=
  String.mk (((s.data.dropWhile (fun c => c = ' ')).reverse.dropWhile
    (fun c => c = ' ')).reverse)

/-- Spark's `F.upper`: character-wise uppercase. -/
def sparkUpper (s : String) : String :=
  String.mk (s.data.map Char.toUpper)

/-- The key normalization used throughout the notebook:
`F.upper(F.trim(col))`. -/
def normKey (s : String) : String :=
  sparkUpper (sparkTrim s)

/-- Whether a string contains at least one non-whitespace character
(general whitespace, as the spec's word "whitespace" reads). -/
def hasNonWS (s : String) : Bool :=
  s.data.any (fun c => !c.isWhitespace)

/-- Number of days of a month in the proleptic Gregorian calendar. -/
def daysInMonth (y m : Nat) : Nat :=
  if m = 2 then
    (if (y % 4 = 0 ∧ y % 100 ≠ 0) ∨ y % 400 = 0 then 29 else 28)
  else if m = 4 ∨ m = 6 ∨ m = 9 ∨ m = 11 then 30
  else 31

/-- Day count since 1970-01-01 of a civil date (standard civil-days
computation). -/
def daysFromCivil (y : Int) (m d : Nat) : Int :=
  let yAdj : Int := if m ≤ 2 then y - 1 else y
  let era : Int := (if 0 ≤ yAdj then yAdj else yAdj - 399) / 400
  let yoe : Int := yAdj - era * 400
  let mp : Nat := (m + 9) % 12
  let doy : Int := ((153 * (mp : Int) + 2) / 5) + (d : Int) - 1
  let doe : Int := yoe * 365 + yoe / 4 - yoe / 100 + doy
  era * 146097 + doe - 719468

/-- Embedding of `F.to_date` on the canonical `YYYY-MM-DD` input this
pipeline's source data carries: a strict ISO date parse; anything else
fails to parse and yields `none` (the record keeps a null date, as the
notebook's normalization step does). -/
def parseDate (s : String) : Option Int :=
  match s.splitOn "-" with
  | [ys, ms, ds] =>
    match ys.toNat?, ms.toNat?, ds.toNat? with
    | some y, some m, some d =>
      if 1 ≤ m ∧ m ≤ 12 ∧ 1 ≤ d ∧ d ≤ daysInMonth y m then
        some (daysFromCivil (y : Int) m d)
      else none
    | _, _, _ => none
  | _ => none

/-- Embedding of `F.datediff(current_date(), col)`: day difference,
`NULL` when the date column is `NULL`. -/
def datediff (today : Int) (d : Option Int) : Option Int :=
  d.map (fun x => today - x)

/-! ### Data model -/

/-- One raw row of the fact table `analytics.ops_core.fact_documents_backlog`
(all columns nullable). -/
structure FactRaw where
  document_id : Option String
  document_number : Option String
  document_key : Option String
  document_amount : Option Int
  issue_date : Option String
  due_date : Option String
  client_tax_id : Option String
  client_name : Option String
  supplier_tax_id : Option String
  supplier_name : Option String
  processing_status : Option String
  processing_days : Option Int
  document_link : Option String
  document_category : Option String
  resolution_type : Option String
  responsible_area : Option String
  request_owner : Option String
  task_name : Option String
  processing_flag : Option String
  business_unit : Option String
  cost_center : Option String
  deriving Repr, DecidableEq

/-- One raw row of the dimension table `analytics.ops_core.dim_users`. -/
structure UserRaw where
  username : Option String
  email : Option String
  deriving Repr, DecidableEq

/-- A fact row after normalization (notebook step 3.2): adds
`request_owner_norm = upper(trim(request_owner))` and
`issue_date_dt = to_date(issue_date)`. -/
structure FactNorm extends FactRaw where
  request_owner_norm : Option String
  issue_date_dt : Option Int
  deriving Repr, DecidableEq

/-- A dimension row after normalization (notebook step 3.3):
`username_norm = upper(trim(username))`, `user_email = email`. -/
structure UserNorm where
  username_norm : Option String
  user_email : Option String
  deriving Repr, DecidableEq

/-- A joined row of `df_base` (notebook step 3.4): the fact row plus the
resolved `notification_email` column. -/
structure BaseRow extends FactNorm where
  notification_email : Option String
  deriving Repr, DecidableEq

/-- Normalization of one fact row (notebook step 3.2).  `cast("string")`
on a string column is the identity and keeps `NULL` as `NULL`. -/
def normalizeFact (r : FactRaw) : FactNorm :=
  { r with
    request_owner_norm := r.request_owner.map normKey
    issue_date_dt := r.issue_date.bind parseDate }

/-- Normalization of one dimension row (notebook step 3.3). -/
def normalizeUser (u : UserRaw) : UserNorm :=
  { username_norm := u.username.map normKey, user_email := u.email }

/-- The join condition of notebook step 3.4:
`f.request_owner_norm == u.username_norm` under SQL equality, so a
`NULL` key on either side never matches. -/
def joinMatches (f : FactNorm) (u : UserNorm) : Bool :=
  isTrue (sqlEqS f.request_owner_norm u.username_norm)

/-- Left join of one fact row against the user dimension (notebook step
3.4): every matching user row contributes an output row; an unmatched
fact row is retained once with a null `notification_email`. -/
def leftJoinEmails (users : List UserNorm) (f : FactNorm) : List BaseRow :=
  let ms := users.filter (joinMatches f)
  if ms.isEmpty then [{ toFactNorm := f, notification_email := none }]
  else ms.map (fun u => { toFactNorm := f, notification_email := u.user_email })

/-! ### Email fallback (notebook step 4) -/

/-- Notebook step 4.2, `email_vazio`:
`col.isNull() | (length(trim(col)) == 0)` under Kleene logic.  For a
non-null value this is a Boolean; for `NULL` the disjunction is
`TRUE OR NULL = TRUE`. -/
def email_vazio (e : Option String) : Option Bool :=
  sqlOr (some e.isNone) (e.map (fun s => (sparkTrim s).length == 0))

/-- Notebook step 4.3, `resp_norm`:
`upper(trim(cast(responsible_area as string)))`. -/
def resp_norm (r : Option String) : Option String :=
  r.map normKey

/-- Notebook step 4.4: the `F.when` fallback chain producing the final
`notification_email` column.  Each `when` branch fires only when its
condition evaluates to `some true`. -/
def resolveEmail (joined : Option String) (respArea : Option String) :
    Option String :=
  if isTrue (sqlNot (email_vazio joined)) then joined
  else if isTrue (sqlEqS (resp_norm respArea) (some "WAREHOUSE")) then
    some "warehouse.team@example.com"
  else if isTrue (sqlEqS (resp_norm respArea) (some "CUSTOMER_SUPPORT")) then
    some "support.team@example.com"
  else if isTrue (sqlIsin (resp_norm respArea) ["FINANCE_OPS", "FINANCE"]) then
    some "finance.ops@example.com"
  else none

/-- Application of the fallback chain to one joined row (the
`withColumn("notification_email", ...)` of step 4.4). -/
def applyFallback (r : BaseRow) : BaseRow :=
  { r with notification_email := resolveEmail r.notification_email r.responsible_area }

/-! ### Configuration and filter (notebook steps 1 and 4.5) -/

/-- The business configuration constants of notebook step 1:
`SLA_DIAS`, `COST_CENTER_FILTRO`, `MAX_LINHAS_EXCEL` and the
`tarefas_excluir` list of step 4.1. -/
structure Config where
  sla_dias : Int
  cost_center_filtro : String
  tarefas_excluir : List String
  max_linhas_excel : Nat
  deriving Repr, DecidableEq

/-- The concrete values hard-coded in the notebook. -/
def defaultConfig : Config :=
  { sla_dias := 15
    cost_center_filtro := "D010"
    tarefas_excluir :=
      ["Auto - Sync Metadata", "Auto - Retry Integration",
       "Auto - Generate Reference Doc", "End - Finalized"]
    max_linhas_excel := 2000 }

/-- Notebook step 4.5, `df_filtrado`: the conjunction of the five
`.where` clauses; each clause keeps a row only when its predicate is
`some true`. -/
def keepRow (cfg : Config) (today : Int) (r : BaseRow) : Bool :=
  isTrue (sqlNot (sqlIsin r.task_name cfg.tarefas_excluir)) &&
  isTrue (sqlEqS r.processing_flag (some "Pending")) &&
  isTrue (sqlEqS r.cost_center (some cfg.cost_center_filtro)) &&
  isTrue (sqlIsNotNull r.issue_date_dt) &&
  isTrue (sqlGtI (datediff today r.issue_date_dt) cfg.sla_dias)

/-! ### Pipeline dataframes -/

/-- `df_fact` of step 3.2. -/
def df_fact (facts : List FactRaw) : List FactNorm :=
  facts.map normalizeFact

/-- `df_users` of step 3.3. -/
def df_users (users : List UserRaw) : List UserNorm :=
  users.map normalizeUser

/-- `df_base` after steps 3.4 and 4.4: left join on the normalized key,
then fallback email resolution. -/
def df_base (facts : List FactRaw) (users : List UserRaw) : List BaseRow :=
  ((df_fact facts).flatMap (leftJoinEmails (df_users users))).map applyFallback

/-- `df_filtrado` of step 4.5. -/
def df_filtrado (cfg : Config) (today : Int) (facts : List FactRaw)
    (users : List UserRaw) : List BaseRow :=
  (df_base facts users).filter (keepRow cfg today)

/-! ### Report builder (notebook step 5) -/

/-- One row of `df_excel`: the fixed, ordered 22-column projection of
step 5.1 (with `issue_date_dt` aliased back to `issue_date`). -/
structure ReportRow where
  document_id : Option String
  document_number : Option String
  document_key : Option String
  document_amount : Option Int
  issue_date : Option Int
  due_date : Option String
  client_tax_id : Option String
  client_name : Option String
  supplier_tax_id : Option String
  supplier_name : Option String
  processing_status : Option String
  processing_days : Option Int
  document_link : Option String
  document_category : Option String
  resolution_type : Option String
  responsible_area : Option String
  request_owner : Option String
  task_name : Option String
  processing_flag : Option String
  business_unit : Option String
  cost_center : Option String
  notification_email : Option String
  deriving Repr, DecidableEq

/-- The column selection of step 5.1 applied to one filtered row. -/
def toReportRow (r : BaseRow) : ReportRow :=
  { document_id := r.document_id
    document_number := r.document_number
    document_key := r.document_key
    document_amount := r.document_amount
    issue_date := r.issue_date_dt
    due_date := r.due_date
    client_tax_id := r.client_tax_id
    client_name := r.client_name
    supplier_tax_id := r.supplier_tax_id
    supplier_name := r.supplier_name
    processing_status := r.processing_status
    processing_days := r.processing_days
    document_link := r.document_link
    document_category := r.document_category
    resolution_type := r.resolution_type
    responsible_area := r.responsible_area
    request_owner := r.request_owner
    task_name := r.task_name
    processing_flag := r.processing_flag
    business_unit := r.business_unit
    cost_center := r.cost_center
    notification_email := r.notification_email }

/-- `df_excel` of step 5.1: column selection followed by
`.limit(MAX_LINHAS_EXCEL)`; `toPandas` (step 5.2) collects this list
unchanged. -/
def df_excel (cfg : Config) (filtered : List BaseRow) : List ReportRow :=
  (filtered.map toReportRow).take cfg.max_linhas_excel

/-- The artifact file name of step 5.4:
`operational_alerts_{COST_CENTER_FILTRO}_{DATA_HOJE}.xlsx`. -/
def fileName (cfg : Config) (dateStr : String) : String :=
  "operational_alerts_" ++ cfg.cost_center_filtro ++ "_" ++ dateStr ++ ".xlsx"

/-- The artifact path of step 5.4 (written under `/tmp`). -/
def filePath (cfg : Config) (dateStr : String) : String :=
  "/tmp/" ++ fileName cfg dateStr

/-! ### Driver control flow (notebook steps 5, 7 and 8) -/

/-- Outcome of the send block of notebook step 7. -/
inductive SendResult where
  /-- `qtd == 0`: the block prints "Sem envio" and sends nothing. -/
  | skipped : SendResult
  /-- `qtd != 0` and the artifact exists: one message is sent with the
  artifact at the given path attached. -/
  | sent (path : String) : SendResult
  /-- `qtd != 0` but the Excel block never assigned `file_path`
  (its `df_pandas.empty` guard fired): the block still executes, and
  `open(file_path, "rb")` raises `NameError`, aborting the run before
  any message is sent. -/
  | attachError : SendResult
  deriving Repr, DecidableEq

/-- The run summary dictionary of notebook step 8. -/
inductive Metrics where
  /-- `{status: no_action, filtered_records, cost_center, sla_days, date}`. -/
  | no_action (filtered_records : Nat) (cost_center : String)
      (sla_days : Int) (date : String) : Metrics
  /-- `{status: email_sent, filtered_records, excel_rows, cost_center,
  sla_days, date, excel_path}`. -/
  | email_sent (filtered_records : Nat) (excel_rows : Nat)
      (cost_center : String) (sla_days : Int) (date : String)
      (excel_path : String) : Metrics
  deriving Repr, DecidableEq

/-- What the driver produced after the filter stage. -/
structure DriverResult where
  /-- The written artifact: its row list and path, or `none` when no
  file was written. -/
  artifact : Option (List ReportRow × String)
  /-- Outcome of the send block. -/
  send : SendResult
  /-- The metrics record of step 8; `none` when the run aborted before
  reaching it. -/
  metrics : Option Metrics
  deriving Repr, DecidableEq

/-- The driver-side control flow of notebook steps 5, 7 and 8, as a
function of the filtered count `qtd` and the collected `df_pandas`
row list (taken as an input here so that the defensive case of an
empty collection under a non-zero count is expressible):
step 5 writes the artifact only when `qtd != 0` and the collected
frame is non-empty; step 7 is guarded only by `qtd == 0` and, when the
artifact was never written, fails with `NameError` on the unassigned
`file_path`; step 8 runs only if the earlier cells did not abort. -/
def driverAfterFilter (cfg : Config) (dateStr : String) (qtd : Nat)
    (collected : List ReportRow) : DriverResult :=
  let artifact : Option (List ReportRow × String) :=
    if qtd = 0 then none
    else if collected.isEmpty then none
    else some (collected, filePath cfg dateStr)
  let send : SendResult :=
    if qtd = 0 then SendResult.skipped
    else
      match artifact with
      | some a => SendResult.sent a.2
      | none => SendResult.attachError
  let metrics : Option Metrics :=
    match send with
    | SendResult.attachError => none
    | _ =>
      some (if qtd = 0 then
        Metrics.no_action 0 cfg.cost_center_filtro cfg.sla_dias dateStr
      else
        Metrics.email_sent qtd collected.length cfg.cost_center_filtro
          cfg.sla_dias dateStr (filePath cfg dateStr))
  { artifact := artifact, send := send, metrics := metrics }

/-- The outcome of one full run. -/
structure RunResult where
  /-- The qualifying record set (`df_filtrado`). -/
  filtered : List BaseRow
  /-- Artifact, send and metrics outcomes. -/
  report : DriverResult
  deriving Repr, DecidableEq

/-- One full pipeline run for a fixed pair of input tables, fixed
configuration and fixed run date (`today` as a day number, `dateStr` as
the `DATA_HOJE` string). -/
def runPipeline (cfg : Config) (today : Int) (dateStr : String)
    (facts : List FactRaw) (users : List UserRaw) : RunResult :=
  let filtered := df_filtrado cfg today facts users
  { filtered := filtered
    report := driverAfterFilter cfg dateStr filtered.length (df_excel cfg filtered) }

/-! ### Credential resolution (notebook step 1.6) -/

/-- Notebook step 1.6, `get_secret_or_env`: `secret` is the value the
Databricks secret store returned (or `none` when the lookup raised),
`env` is `os.getenv(env_key)`.  Python's `if not v` treats both `None`
and the empty string as missing and raises `ValueError`. -/
def get_secret_or_env (secret : Option String) (env : Option String) :
    Except String String :=
  match secret with
  | some s => Except.ok s
  | none =>
    match env with
    | some v =>
      if v = "" then Except.error "Credencial ausente" else Except.ok v
    | none => Except.error "Credencial ausente"

/-- The program's startup-then-run order (notebook steps 1.7 before 3):
both credentials are resolved before any table is read; a credential
error aborts the run before any data access. -/
def runProgram (secretUser envUser secretPass envPass : Option String)
    (cfg : Config) (today : Int) (dateStr : String)
    (facts : List FactRaw) (users : List UserRaw) : Except String RunResult :=
  match get_secret_or_env secretUser envUser with
  | Except.error e => Except.error e
  | Except.ok _ =>
    match get_secret_or_env secretPass envPass with
    | Except.error e => Except.error e
    | Except.ok _ => Except.ok (runPipeline cfg today dateStr facts users)

/-! ### Spec-side definitions for the email-resolution claims

These follow the words of the specification claims (not the source) and
are compared with `resolveEmail` above. -/

/-- The fallback chain in the spec's words: the fixed warehouse address
if the normalized responsible area equals `"WAREHOUSE"`, else the fixed
support address if it equals `"CUSTOMER_SUPPORT"`, else the fixed
finance address if it is in `{"FINANCE_OPS", "FINANCE"}`, else null. -/
def claimFallback (respArea : Option String) : Option String :=
  match respArea.map normKey with
  | some a =>
    if a = "WAREHOUSE" then some "warehouse.team@example.com"
    else if a = "CUSTOMER_SUPPORT" then some "support.team@example.com"
    else if a = "FINANCE_OPS" ∨ a = "FINANCE" then some "finance.ops@example.com"
    else none
  | none => none

/-- Claim C1 verbatim: use the joined email when it is non-null and
contains a non-WHITESPACE character; otherwise apply the fallback
chain. -/
def claimResolve (joined : Option String) (respArea : Option String) :
    Option String :=
  match joined with
  | some s => if hasNonWS s then some s else claimFallback respArea
  | none => claimFallback respArea

/-- Claim C1 amended to what the code does: use the joined email when it
is non-null and non-empty after stripping leading/trailing SPACE
characters (Spark `trim` strips only spaces); a space-only email falls
back identically to null, but an email made of other whitespace (tab,
newline) counts as content and is kept. -/
def amendedResolve (joined : Option String) (respArea : Option String) :
    Option String :=
  match joined with
  | some s => if sparkTrim s = "" then claimFallback respArea else some s
  | none => claimFallback respArea

/-! ### Concrete sample rows for witnesses -/

/-- A fact row matching the spec's end-to-end scenario (owner `jdoe`,
cost center `D010`, flag `Pending`, task `Review`). -/
def sampleFactRaw : FactRaw :=
  { document_id := some "1001"
    document_number := some "42"
    document_key := some "K-42"
    document_amount := some 150
    issue_date := some "2026-01-01"
    due_date := some "2026-02-01"
    client_tax_id := some "11111111"
    client_name := some "Client A"
    supplier_tax_id := some "22222222"
    supplier_name := some "Supplier B"
    processing_status := some "Open"
    processing_days := some 20
    document_link := some "http://docs/1001"
    document_category := some "Invoice"
    resolution_type := some "Manual"
    responsible_area := some "WAREHOUSE"
    request_owner := some "jdoe"
    task_name := some "Review"
    processing_flag := some "Pending"
    business_unit := some "BU1"
    cost_center := some "D010" }

/-- The same row after normalization and email resolution, with the
issue date at day number 0 and a resolved dimension email. -/
def sampleBase : BaseRow :=
  { toFactRaw := sampleFactRaw
    request_owner_norm := some "JDOE"
    issue_date_dt := some 0
    notification_email := some "j@x.com" }

/-- A resolved row whose `task_name` is null (and other filter columns
non-null and passing). -/
def sampleNullTask : BaseRow :=
  { toFactRaw := { sampleFactRaw with task_name := none }
    request_owner_norm := some "JDOE"
    issue_date_dt := some 0
    notification_email := some "j@x.com" }

/-- A normalized fact row for join witnesses. -/
def sampleFactNorm : FactNorm :=
  { toFactRaw := sampleFactRaw
    request_owner_norm := some "JDOE"
    issue_date_dt := some 0 }

/-- A normalized dimension row that does NOT match `sampleFactNorm`. -/
def sampleUserNorm : UserNorm :=
  { username_norm := some "ASMITH", user_email := some "a@x.com" }

/-- A resolved row whose `task_name` exactly matches an entry of the
exclusion list (all other filter columns passing). -/
def sampleExcludedTask : BaseRow :=
  { toFactRaw := { sampleFactRaw with task_name := some "End - Finalized" }
    request_owner_norm := some "JDOE"
    issue_date_dt := some 0
    notification_email := some "j@x.com" }

/-! ## Helper lemmas -/

theorem isTrue_some (b : Bool) : isTrue (some b) = b := by
  cases b <;> rfl

theorem isTrue_none : isTrue none = false := rfl

theorem string_length_eq_zero_iff (s : String) : s.length = 0 ↔ s = "" := by
  constructor
  · intro h
    cases s with
    | mk l =>
      cases l with
      | nil => rfl
      | cons c cs => simp [String.length] at h
  · intro h
    subst h
    rfl

theorem fallback_chain_eq (a : Option String) :
    (if isTrue (sqlEqS (resp_norm a) (some "WAREHOUSE")) then
       some "warehouse.team@example.com"
     else if isTrue (sqlEqS (resp_norm a) (some "CUSTOMER_SUPPORT")) then
       some "support.team@example.com"
     else if isTrue (sqlIsin (resp_norm a) ["FINANCE_OPS", "FINANCE"]) then
       some "finance.ops@example.com"
     else none) = claimFallback a := by
  cases a with
  | none => rfl
  | some r =>
    simp only [resp_norm, Option.map_some', claimFallback, sqlEqS, sqlIsin,
      isTrue_some, List.any_cons, List.any_nil, Bool.or_false]
    by_cases h1 : normKey r = "WAREHOUSE"
    · simp [h1]
    · by_cases h3 : normKey r = "CUSTOMER_SUPPORT"
      · simp [h1, h3]
      · by_cases h4 : normKey r = "FINANCE_OPS"
        · simp [h1, h3, h4]
        · by_cases h5 : normKey r = "FINANCE"
          · simp [h1, h3, h4, h5]
          · simp [h1, h3, h4, h5]

theorem resolveEmail_eq_amended (j a : Option String) :
    resolveEmail j a = amendedResolve j a := by
  cases j with
  | none =>
    have hv : email_vazio none = some true := rfl
    simpa [resolveEmail, amendedResolve, hv, sqlNot, isTrue] using
      fallback_chain_eq a
  | some s =>
    by_cases h : sparkTrim s = ""
    · have hv : email_vazio (some s) = some true := by
        simp [email_vazio, sqlOr, h]
      simpa [resolveEmail, amendedResolve, hv, sqlNot, isTrue, h] using
        fallback_chain_eq a
    · have hlen : ((sparkTrim s).length == 0) = false := by
        simp [Nat.beq_eq_true_eq]
        intro hc
        exact h ((string_length_eq_zero_iff (sparkTrim s)).mp hc)
      have hv : email_vazio (some s) = some false := by
        simp [email_vazio, sqlOr, hlen]
      simp [resolveEmail, amendedResolve, hv, sqlNot, isTrue, h]

theorem claimFallback_nonblank (a : Option String) :
    claimFallback a = none ∨
      ∃ s, claimFallback a = some s ∧ sparkTrim s ≠ "" := by
  cases a with
  | none => exact Or.inl rfl
  | some r =>
    simp only [claimFallback, Option.map_some']
    split_ifs with h1 h2 h3
    · exact Or.inr ⟨_, rfl, by decide⟩
    · exact Or.inr ⟨_, rfl, by decide⟩
    · exact Or.inr ⟨_, rfl, by decide⟩
    · exact Or.inl rfl

/-! ## Claim theorems -/

/-- C1 counterexample: the claim as stated fails on the code.  A
joined email consisting of a single TAB character contains no
non-whitespace character, so the claim mandates the fallback chain
(here: the fixed warehouse address); but Spark's `trim` strips only
spaces, so the code's `email_vazio` is false and the tab string is
kept verbatim. -/
theorem c1_whitespace_counterexample :
    resolveEmail (some "\t") (some "WAREHOUSE") = some "\t" ∧
    claimResolve (some "\t") (some "WAREHOUSE") =
      some "warehouse.team@example.com" ∧
    hasNonWS "\t" = false := by
  decide

/-- C1 (amended): the resolved notification email equals the joined
dimension email whenever that email is non-null and non-empty after
stripping leading/trailing SPACE characters; otherwise (null or
space-only) the fallback chain applies in strict priority order
(warehouse, support, finance, else null).  A non-empty joined email is
never overridden by any fallback rule, and an unmatched fact row
enters resolution with a null joined email (left-join semantics). -/
theorem c1_email_resolution_amended :
    (∀ j a, resolveEmail j a = amendedResolve j a) ∧
    (∀ (users : List UserNorm) (f : FactNorm),
      (∀ u ∈ users, joinMatches f u = false) →
      leftJoinEmails users f = [{ toFactNorm := f, notification_email := none }]) := by
  constructor
  · exact resolveEmail_eq_amended
  · intro users f h
    have : users.filter (joinMatches f) = [] := by
      rw [List.filter_eq_nil_iff]
      intro u hu
      simp [h u hu]
    simp [leftJoinEmails, this]

/-- C1 witness: the amended theorem applied at concrete inputs (a
space-only email falls back to the warehouse address; a fact row
matching no dimension row keeps a null email). -/
theorem c1_email_resolution_witness :
    resolveEmail (some " ") (some "WAREHOUSE") =
      amendedResolve (some " ") (some "WAREHOUSE") ∧
    leftJoinEmails [sampleUserNorm] sampleFactNorm =
      [{ toFactNorm := sampleFactNorm, notification_email := none }] :=
  ⟨c1_email_resolution_amended.1 (some " ") (some "WAREHOUSE"),
   c1_email_resolution_amended.2 [sampleUserNorm] sampleFactNorm (by decide)⟩

/-- C5 counterexample: the invariant as stated fails on the code.  A
joined email consisting of a single NEWLINE character is whitespace-only,
yet the resolution stage outputs it unchanged, because Spark's `trim`
strips only spaces. -/
theorem c5_whitespace_invariant_counterexample :
    resolveEmail (some "\n") none = some "\n" ∧
    ("\n".data.all Char.isWhitespace) = true := by
  decide

/-- C5 (amended): for every combination of joined email and
responsible area, the resolved `notification_email` is either null or a
string that is non-empty after stripping leading/trailing SPACE
characters (in particular never the empty string and never space-only);
strings of other whitespace characters can, however, pass through. -/
theorem c5_email_invariant_amended (j a : Option String) :
    resolveEmail j a = none ∨
      ∃ s, resolveEmail j a = some s ∧ sparkTrim s ≠ "" := by
  rw [resolveEmail_eq_amended]
  cases j with
  | none => exact claimFallback_nonblank a
  | some s =>
    by_cases h : sparkTrim s = ""
    · simpa [amendedResolve, h] using claimFallback_nonblank a
    · exact Or.inr ⟨s, by simp [amendedResolve, h], h⟩

/-- C2: SLA boundary exclusivity.  A resolved record whose whole-day
age `today - issueDate` equals `slaDays` never qualifies; one whose age
equals `slaDays + 1` qualifies whenever the other filter predicates
(task exclusion, processing flag, cost center) hold. -/
theorem c2_sla_boundary (cfg : Config) (today d : Int) (r : BaseRow)
    (hd : r.issue_date_dt = some d) :
    (today - d = cfg.sla_dias → keepRow cfg today r = false) ∧
    (today - d = cfg.sla_dias + 1 →
      isTrue (sqlNot (sqlIsin r.task_name cfg.tarefas_excluir)) = true →
      isTrue (sqlEqS r.processing_flag (some "Pending")) = true →
      isTrue (sqlEqS r.cost_center (some cfg.cost_center_filtro)) = true →
      keepRow cfg today r = true) := by
  constructor
  · intro h
    have hsla : isTrue (sqlGtI (datediff today r.issue_date_dt) cfg.sla_dias)
        = false := by
      simp [hd, datediff, sqlGtI, isTrue_some]
      omega
    simp [keepRow, hsla]
  · intro h h1 h2 h3
    have hsla : isTrue (sqlGtI (datediff today r.issue_date_dt) cfg.sla_dias)
        = true := by
      simp [hd, datediff, sqlGtI, isTrue_some]
      omega
    have h4 : isTrue (sqlIsNotNull r.issue_date_dt) = true := by
      simp [hd, sqlIsNotNull, isTrue_some]
    simp [keepRow, h1, h2, h3, h4, hsla]

/-- C2 witness: with the notebook's configuration (`SLA_DIAS = 15`), a
record issued at day 0 qualifies on day 16 (age 16 = 15 + 1) when all
other predicates hold. -/
theorem c2_sla_boundary_witness :
    (16 - 0 = defaultConfig.sla_dias + 1) ∧
    keepRow defaultConfig 16 sampleBase = true :=
  ⟨by decide,
   (c2_sla_boundary defaultConfig 16 0 sampleBase rfl).2 (by decide)
     (by decide) (by decide) (by decide)⟩

/-- C3: evaluation of the driver at the defensive failing input
(qualifying count 1, empty collected selection).  No artifact is
written and no message is sent, but — contrary to the claim — the send
block does execute: it is guarded only by `qtd == 0`, so it runs,
hits the never-assigned `file_path` when opening the attachment, and
aborts the run with a `NameError` instead of skipping; the metrics
cell is consequently never reached. -/
theorem c3_empty_selection_send_block :
    driverAfterFilter defaultConfig "2026-01-01" 1 [] =
      { artifact := none, send := SendResult.attachError, metrics := none } ∧
    SendResult.attachError ≠ SendResult.skipped := by
  refine ⟨rfl, ?_⟩
  intro h
  cases h

/-- C4: row cap.  For every non-empty qualifying set and positive row
cap, the written artifact holds exactly the first
`min(qualifyingCount, maxExportRows)` projected rows, in pipeline
order, with no sampling or reordering. -/
theorem c4_row_cap (cfg : Config) (dateStr : String) (filtered : List BaseRow)
    (hne : filtered ≠ []) (hN : 0 < cfg.max_linhas_excel) :
    ∃ rows path,
      (driverAfterFilter cfg dateStr filtered.length
        (df_excel cfg filtered)).artifact = some (rows, path) ∧
      rows = (filtered.map toReportRow).take cfg.max_linhas_excel ∧
      rows.length = min filtered.length cfg.max_linhas_excel := by
  have hq : filtered.length ≠ 0 := by
    simpa [List.length_eq_zero] using hne
  have hcol : (df_excel cfg filtered).isEmpty = false := by
    rw [List.isEmpty_eq_false]
    simp only [df_excel, ne_eq, List.take_eq_nil_iff, List.map_eq_nil_iff]
    push_neg
    exact ⟨by omega, hne⟩
  refine ⟨df_excel cfg filtered, filePath cfg dateStr, ?_, rfl, ?_⟩
  · simp [driverAfterFilter, hq, hcol]
  · simp [df_excel, List.length_take, Nat.min_comm]

/-- C4 witness: three qualifying rows under a cap of two yield an
artifact of exactly `min 3 2 = 2` rows, the first two in order. -/
theorem c4_row_cap_witness :
    ∃ rows path,
      (driverAfterFilter { defaultConfig with max_linhas_excel := 2 } "2026-01-01"
        ([sampleBase, sampleBase, sampleBase] : List BaseRow).length
        (df_excel { defaultConfig with max_linhas_excel := 2 }
          [sampleBase, sampleBase, sampleBase])).artifact = some (rows, path) ∧
      rows = (([sampleBase, sampleBase, sampleBase] : List BaseRow).map
        toReportRow).take 2 ∧
      rows.length = min 3 2 :=
  c4_row_cap { defaultConfig with max_linhas_excel := 2 } "2026-01-01"
    [sampleBase, sampleBase, sampleBase] (by decide) (by decide)

/-- C6 counterexample: the claim's "removed if and only if the
task_name exactly equals an excluded string" fails on a record whose
`task_name` is null: the exclusion clause removes it (the membership
test is unknown under three-valued logic), yet its task name equals no
excluded string. -/
theorem c6_null_task_counterexample :
    isTrue (sqlNot (sqlIsin sampleNullTask.task_name
      defaultConfig.tarefas_excluir)) = false ∧
    sampleNullTask.task_name = none ∧
    ¬ ∃ s, sampleNullTask.task_name = some s ∧
      s ∈ defaultConfig.tarefas_excluir := by
  refine ⟨rfl, rfl, ?_⟩
  rintro ⟨s, hs, _⟩
  exact Option.noConfusion (show (none : Option String) = some s from hs)

/-- C6 (amended): for every resolved record with a NON-NULL task name,
the exclusion clause removes it if and only if the task name exactly
equals (case- and whitespace-sensitively) one of the configured
excluded strings — near-matches are kept; an exact match is removed
from the qualifying set regardless of every other field.  A record
with a null task name, however, is also removed by the clause. -/
theorem c6_exclusion_amended (cfg : Config) (today : Int) (r : BaseRow) :
    (∀ s, r.task_name = some s →
      (isTrue (sqlNot (sqlIsin r.task_name cfg.tarefas_excluir)) = false ↔
        s ∈ cfg.tarefas_excluir)) ∧
    (r.task_name = none →
      isTrue (sqlNot (sqlIsin r.task_name cfg.tarefas_excluir)) = false) ∧
    (∀ s, r.task_name = some s → s ∈ cfg.tarefas_excluir →
      keepRow cfg today r = false) := by
  have key : ∀ s, r.task_name = some s →
      (isTrue (sqlNot (sqlIsin r.task_name cfg.tarefas_excluir)) = false ↔
        s ∈ cfg.tarefas_excluir) := by
    intro s hs
    simp [hs, sqlIsin, sqlNot, isTrue_some, List.any_eq_true, beq_iff_eq]
  refine ⟨key, ?_, ?_⟩
  · intro h
    simp [h, sqlIsin, sqlNot, isTrue]
  · intro s hs hmem
    have hfalse := (key s hs).mpr hmem
    simp [keepRow, hfalse]

/-- C6 witness: the amended theorem applied to a record whose task name
exactly equals the excluded entry `"End - Finalized"`: the clause
removes it, and the record never qualifies. -/
theorem c6_exclusion_witness :
    (isTrue (sqlNot (sqlIsin sampleExcludedTask.task_name
        defaultConfig.tarefas_excluir)) = false ↔
      "End - Finalized" ∈ defaultConfig.tarefas_excluir) ∧
    keepRow defaultConfig 16 sampleExcludedTask = false :=
  ⟨(c6_exclusion_amended defaultConfig 16 sampleExcludedTask).1
      "End - Finalized" rfl,
   (c6_exclusion_amended defaultConfig 16 sampleExcludedTask).2.2
      "End - Finalized" rfl (by decide)⟩

/-- C7: credential resolution returns the secret-store value when the
secret lookup succeeds, else the environment value when that is
non-empty; when the secret lookup fails and the environment variable is
absent or empty it signals a configuration error, and the program then
aborts before any data access (the pipeline never runs). -/
theorem c7_credential_resolution :
    (∀ (s : String) (env : Option String),
      get_secret_or_env (some s) env = Except.ok s) ∧
    (∀ v : String, v ≠ "" →
      get_secret_or_env none (some v) = Except.ok v) ∧
    (∃ e, get_secret_or_env none none = Except.error e) ∧
    (∃ e, get_secret_or_env none (some "") = Except.error e) ∧
    (∀ (pu pp : Option String) (cfg : Config) (today : Int)
        (dateStr : String) (facts : List FactRaw) (users : List UserRaw),
      ∃ e, runProgram none none pu pp cfg today dateStr facts users =
        Except.error e) := by
  refine ⟨fun s env => rfl, ?_, ⟨_, rfl⟩, ⟨_, rfl⟩, ?_⟩
  · intro v hv
    simp [get_secret_or_env, hv]
  · intro pu pp cfg today dateStr facts users
    exact ⟨_, rfl⟩

/-- C7 witness: the theorem applied at concrete credential values. -/
theorem c7_credential_witness :
    get_secret_or_env (some "svc-secret") none = Except.ok "svc-secret" ∧
    get_secret_or_env none (some "env-user") = Except.ok "env-user" :=
  ⟨c7_credential_resolution.1 "svc-secret" none,
   c7_credential_resolution.2.1 "env-user" (by decide)⟩

theorem driver_metrics_shape (cfg : Config) (dateStr : String) (qtd : Nat)
    (collected : List ReportRow) :
    (qtd = 0 →
      (driverAfterFilter cfg dateStr qtd collected).metrics =
        some (Metrics.no_action 0 cfg.cost_center_filtro cfg.sla_dias dateStr) ∧
      (driverAfterFilter cfg dateStr qtd collected).send = SendResult.skipped) ∧
    (∀ p, (driverAfterFilter cfg dateStr qtd collected).send =
        SendResult.sent p →
      ∃ rows,
        (driverAfterFilter cfg dateStr qtd collected).artifact =
          some (rows, p) ∧
        (driverAfterFilter cfg dateStr qtd collected).metrics =
          some (Metrics.email_sent qtd rows.length cfg.cost_center_filtro
            cfg.sla_dias dateStr p)) := by
  by_cases hq : qtd = 0
  · constructor
    · intro _
      exact ⟨by simp [driverAfterFilter, hq], by simp [driverAfterFilter, hq]⟩
    · intro p hp
      simp [driverAfterFilter, hq] at hp
  · constructor
    · intro h
      exact absurd h hq
    · intro p hp
      by_cases hc : collected.isEmpty
      · simp [driverAfterFilter, hq, hc] at hp
      · simp [driverAfterFilter, hq, hc] at hp ⊢
        obtain rfl : filePath cfg dateStr = p := hp
        exact ⟨collected, ⟨rfl, rfl⟩, rfl, rfl⟩

/-- C8: the run summary has exactly one of two shapes, determined by
the qualifying count.  When no record qualified it is
`no_action {filteredRecords = 0, costCenter, slaDays, runDate}` and
nothing is sent; when a notification was sent it is
`email_sent {filteredRecords, exportedRows, costCenter, slaDays,
runDate, artifactPath}` with `filteredRecords` the qualifying count and
`exportedRows` the row count of the attached artifact. -/
theorem c8_metrics_shape (cfg : Config) (today : Int) (dateStr : String)
    (facts : List FactRaw) (users : List UserRaw) :
    ((runPipeline cfg today dateStr facts users).filtered.length = 0 →
      (runPipeline cfg today dateStr facts users).report.metrics =
        some (Metrics.no_action 0 cfg.cost_center_filtro cfg.sla_dias dateStr) ∧
      (runPipeline cfg today dateStr facts users).report.send =
        SendResult.skipped) ∧
    (∀ p, (runPipeline cfg today dateStr facts users).report.send =
        SendResult.sent p →
      ∃ rows,
        (runPipeline cfg today dateStr facts users).report.artifact =
          some (rows, p) ∧
        (runPipeline cfg today dateStr facts users).report.metrics =
          some (Metrics.email_sent
            (runPipeline cfg today dateStr facts users).filtered.length
            rows.length cfg.cost_center_filtro cfg.sla_dias dateStr p)) :=
  driver_metrics_shape cfg dateStr (df_filtrado cfg today facts users).length
    (df_excel cfg (df_filtrado cfg today facts users))

/-- C8 witness: a run over empty inputs emits the `no_action` summary
with zero filtered records and sends nothing. -/
theorem c8_metrics_witness :
    (runPipeline defaultConfig 0 "2026-01-02" [] []).report.metrics =
      some (Metrics.no_action 0 "D010" 15 "2026-01-02") ∧
    (runPipeline defaultConfig 0 "2026-01-02" [] []).report.send =
      SendResult.skipped :=
  (c8_metrics_shape defaultConfig 0 "2026-01-02" [] []).1 rfl

/-- C9: determinism.  For a fixed pair of input tables, fixed
configuration and fixed run date, two executions of the pipeline
produce the same result — in particular the same qualifying record set
and identical run summaries; and when the qualifying set is empty both
executions emit identical `no_action` summaries and send zero
messages. -/
theorem c9_deterministic (cfg : Config) (today : Int) (dateStr : String)
    (facts : List FactRaw) (users : List UserRaw) (r1 r2 : RunResult)
    (h1 : r1 = runPipeline cfg today dateStr facts users)
    (h2 : r2 = runPipeline cfg today dateStr facts users) :
    r1 = r2 ∧
    (r1.filtered = [] →
      r1.report.metrics =
        some (Metrics.no_action 0 cfg.cost_center_filtro cfg.sla_dias dateStr) ∧
      r2.report.metrics = r1.report.metrics ∧
      r1.report.send = SendResult.skipped ∧
      r2.report.send = SendResult.skipped) := by
  subst h1
  subst h2
  refine ⟨rfl, ?_⟩
  intro h
  have hq : (df_filtrado cfg today facts users).length = 0 := by
    have he : df_filtrado cfg today facts users = [] := h
    simp [he]
  have hd := (driver_metrics_shape cfg dateStr
    (df_filtrado cfg today facts users).length
    (df_excel cfg (df_filtrado cfg today facts users))).1 hq
  exact ⟨hd.1, rfl, hd.2, hd.2⟩

/-- C9 witness: two runs over the same (empty) inputs coincide and both
report `no_action` while skipping the send. -/
theorem c9_deterministic_witness :
    runPipeline defaultConfig 0 "2026-01-03" [] [] =
      runPipeline defaultConfig 0 "2026-01-03" [] [] ∧
    ((runPipeline defaultConfig 0 "2026-01-03" [] []).report.metrics =
        some (Metrics.no_action 0 "D010" 15 "2026-01-03") ∧
      (runPipeline defaultConfig 0 "2026-01-03" [] []).report.metrics =
        (runPipeline defaultConfig 0 "2026-01-03" [] []).report.metrics ∧
      (runPipeline defaultConfig 0 "2026-01-03" [] []).report.send =
        SendResult.skipped ∧
      (runPipeline defaultConfig 0 "2026-01-03" [] []).report.send =
        SendResult.skipped) :=
  ⟨(c9_deterministic defaultConfig 0 "2026-01-03" [] []
      (runPipeline defaultConfig 0 "2026-01-03" [] [])
      (runPipeline defaultConfig 0 "2026-01-03" [] []) rfl rfl).1,
   (c9_deterministic defaultConfig 0 "2026-01-03" [] []
      (runPipeline defaultConfig 0 "2026-01-03" [] [])
      (runPipeline defaultConfig 0 "2026-01-03" [] []) rfl rfl).2 rfl⟩

/-- C10: a record whose `task_name`, `processing_flag` or `cost_center`
is null never qualifies, although null is not a member of the excluded
list: under three-valued semantics the corresponding comparison
evaluates to unknown (`none`) and the `.where` clause drops the row. -/
theorem c10_null_columns (cfg : Config) (today : Int) (r : BaseRow)
    (h : r.task_name = none ∨ r.processing_flag = none ∨
      r.cost_center = none) :
    keepRow cfg today r = false ∧
    (r.task_name = none →
      sqlNot (sqlIsin r.task_name cfg.tarefas_excluir) = none) ∧
    (r.processing_flag = none →
      sqlEqS r.processing_flag (some "Pending") = none) ∧
    (r.cost_center = none →
      sqlEqS r.cost_center (some cfg.cost_center_filtro) = none) := by
  refine ⟨?_, ?_, ?_, ?_⟩
  · rcases h with h | h | h
    · simp [keepRow, h, sqlIsin, sqlNot, isTrue]
    · simp [keepRow, h, sqlEqS, isTrue]
    · simp [keepRow, h, sqlEqS, isTrue]
  · intro h0
    simp [h0, sqlIsin, sqlNot]
  · intro h0
    simp [h0, sqlEqS]
  · intro h0
    simp [h0, sqlEqS]

/-- C10 witness: the concrete null-task record is dropped by the
filter. -/
theorem c10_null_columns_witness :
    keepRow defaultConfig 16 sampleNullTask = false :=
  (c10_null_columns defaultConfig 16 sampleNullTask (Or.inl rfl)).1

end Alertas
